import Mathlib

/-!
Verification of the Observational Memory pipeline (observer / reflector /
context-loader hooks).  Python strings are modelled as `List Char`; the files
that the hooks read and write (`observations.md`, `.observer-state.json`,
`reflections.log`) are modelled as one explicit `MemoryState` record; the
summarization engine (`claude -p`) is an opaque function parameter mapping
the environment guard flag and the piped prompt to a raw subprocess outcome.
Every invocation additionally returns the list of prompts actually piped to
the engine, so that non-invocation of the engine is directly observable.
-/

/-- Python `str` is modelled as a list of characters. -/
abbrev Text := List Char

/-- Whitespace test used by Python `str.strip()` (space, tab, CR, LF). -/
def isSpaceChar (c : Char) : Bool := c.isWhitespace

/-- Python `s.strip()`: drop whitespace from both ends. -/
def pyStrip (s : Text) : Text :=
  ((s.dropWhile isSpaceChar).reverse.dropWhile isSpaceChar).reverse

/-- Python `s[-n:]` for a fixed positive `n`: the trailing `n` characters
(the whole string when it is shorter). -/
def takeRightText (s : Text) (n : Nat) : Text := s.drop (s.length - n)

/-- Decimal rendering of a number, as in a Python f-string `{n}`. -/
def natText (n : Nat) : Text := (Nat.repr n).data

/-- The apostrophe character (codepoint 39), used inside prompt literals. -/
def apos : Char := Char.ofNat 39

/-- Python string join with a separator. -/
def joinText (sep : Text) (parts : List Text) : Text := List.intercalate sep parts

/-- Python `dict.get(key, default)` over a string-valued dictionary, modelled
as an association list. -/
def dictGetD (d : List (Text × Text)) (key : Text) (default : Text) : Text :=
  match d.find? (fun p => p.1 = key) with
  | some p => p.2
  | none => default

/-- Index of the first occurrence of `pat` inside `s` (`re.search` position
for a literal pattern), `none` when absent. -/
def firstMatch (pat : Text) : Text → Option Nat
  | [] => if pat = [] then some 0 else none
  | c :: rest =>
    if pat.isPrefixOf (c :: rest) then some 0
    else (firstMatch pat rest).map (· + 1)

/-- The regex search for openTag, a shortest gap, then closeTag: the text strictly
between the first occurrence of `openTag` and the first occurrence of
`closeTag` after it. -/
def extractSection (openTag closeTag s : Text) : Option Text :=
  match firstMatch openTag s with
  | none => none
  | some i =>
    let rest := s.drop (i + openTag.length)
    match firstMatch closeTag rest with
    | none => none
    | some j => some (rest.take j)

/-- One pass of the regex substitution removing an openTag-to-closeTag span,
fuelled to make the recursion on ever-shorter suffixes structural (the fuel
`s.length + 1` always suffices because the tags used are non-empty). -/
def removeSectionsFuel (openTag closeTag : Text) : Nat → Text → Text
  | 0, s => s
  | fuel + 1, s =>
    match firstMatch openTag s with
    | none => s
    | some i =>
      let rest := s.drop (i + openTag.length)
      match firstMatch closeTag rest with
      | none => s
      | some j =>
        s.take i ++ removeSectionsFuel openTag closeTag fuel (rest.drop (j + closeTag.length))

/-- Remove every non-overlapping `openTag ... closeTag` span from `s`. -/
def removeSections (openTag closeTag s : Text) : Text :=
  removeSectionsFuel openTag closeTag (s.length + 1) s

/-- A `\w` word character of the code-fence regex. -/
def isWordChar (c : Char) : Bool := c.isAlphanum || c = '_'

/-- The regex substitution removing an opening code fence (three backquote
characters, word characters, an optional newline) anchored at the start; the
input text is always pre-stripped, so the start anchor is the string start. -/
def stripFenceStart (s : Text) : Text :=
  if ("```").data.isPrefixOf s then
    let t := (s.drop 3).dropWhile isWordChar
    match t with
    | '\n' :: u => u
    | _ => t
  else s

/-- The regex substitution removing a closing code fence (an optional newline
then three backquote characters) anchored at the end; the input text is
always pre-stripped, so the end anchor is the string end. -/
def stripFenceEnd (s : Text) : Text :=
  if ("```").data.isSuffixOf s then
    let t := s.take (s.length - 3)
    if t.getLast? = some '\n' then t.take (t.length - 1) else t
  else s

/-! ## Transcript entries and the entry formatter (observer.py lines 47-162) -/

/-- One content block of a transcript message (`message.content` list item). -/
inductive Block where
  /-- a dict block whose type field is text -/
  | text (t : Text)
  /-- a dict block whose type field is tool_use; the tool input dict carries
  string values -/
  | toolUse (name : Text) (input : List (Text × Text))
  /-- a bare string block -/
  | str (s : Text)
  /-- a dict block of any other type (skipped by the formatter) -/
  | other
deriving DecidableEq

/-- The `content` field of a transcript message. -/
inductive Content where
  /-- a plain string -/
  | str (s : Text)
  /-- a list of typed blocks -/
  | blocks (bs : List Block)
  /-- anything else (formats to the empty string) -/
  | other
deriving DecidableEq

/-- One parsed transcript entry (`read_transcript` output): the enumerated
line number of the JSONL line it was parsed from, the `type` discriminator,
the message content and (for `summary` entries) the `summary` field. -/
structure Entry where
  lineNum : Nat
  kind : Text
  content : Content
  summary : Text
deriving DecidableEq

/-- `_summarize_tool_use`: a one-line bracketed summary keyed by tool name. -/
def summarizeToolUse (name : Text) (input : List (Text × Text)) : Text :=
  if name = ("Bash").data then
    ("[Ran: ").data ++ (dictGetD input ("command").data []).take 200 ++ ("]").data
  else if name = ("Read").data then
    ("[Read: ").data ++ dictGetD input ("file_path").data ("?").data ++ ("]").data
  else if name = ("Write").data then
    ("[Wrote: ").data ++ dictGetD input ("file_path").data ("?").data ++ ("]").data
  else if name = ("Edit").data then
    ("[Edited: ").data ++ dictGetD input ("file_path").data ("?").data ++ ("]").data
  else if name = ("Glob").data then
    ("[Glob: ").data ++ dictGetD input ("pattern").data ("?").data ++ ("]").data
  else if name = ("Grep").data then
    ("[Grep: ").data ++ dictGetD input ("pattern").data ("?").data ++ ("]").data
  else if name = ("Task").data then
    ("[Delegated: ").data ++ dictGetD input ("description").data ("?").data ++ ("]").data
  else if name = ("WebFetch").data then
    ("[Fetched: ").data ++ dictGetD input ("url").data ("?").data ++ ("]").data
  else if name = ("WebSearch").data then
    ("[Searched: ").data ++ dictGetD input ("query").data ("?").data ++ ("]").data
  else
    ("[Tool: ").data ++ name ++ ("]").data

/-- `_extract_text_from_content`: text blocks and bare strings, joined by a
space. -/
def extractTextFromContent : Content → Text
  | .str s => s
  | .blocks bs =>
    joinText (" ").data
      (bs.filterMap (fun b =>
        match b with
        | .text t => some t
        | .str s => some s
        | _ => none))
  | .other => []

/-- `_extract_assistant_content`: stripped non-empty text blocks, tool-use
summaries and bare strings, joined by a space. -/
def extractAssistantContent : Content → Text
  | .str s => s
  | .blocks bs =>
    joinText (" ").data
      (bs.filterMap (fun b =>
        match b with
        | .text t => if pyStrip t ≠ [] then some (pyStrip t) else none
        | .toolUse name input => some (summarizeToolUse name input)
        | .str s => some s
        | .other => none))
  | .other => []

/-- `extract_text_content`: the role-tagged one-line rendering of an entry,
empty when the entry contributes nothing. -/
def extractTextContent (e : Entry) : Text :=
  if e.kind = ("human").data ∨ e.kind = ("user").data then
    let text := extractTextFromContent e.content
    if text ≠ [] then ("[User]: ").data ++ text else []
  else if e.kind = ("assistant").data then
    let text := extractAssistantContent e.content
    if text ≠ [] then ("[Assistant]: ").data ++ text else []
  else if e.kind = ("summary").data then
    if e.summary ≠ [] then ("[Context Summary]: ").data ++ e.summary else []
  else []

/-- `format_messages_for_observer`: non-empty renderings joined by a blank
line. -/
def formatMessagesForObserver (messages : List Entry) : Text :=
  joinText ("\n\n").data
    ((messages.map extractTextContent).filter (fun t => t ≠ []))

/-! ## Persisted state (observer.py lines 165-196, reflector.py, loader) -/

/-- The `.observer-state.json` record written by `save_state`. -/
structure ObserverState where
  lastObservedLine : Nat
  transcriptPath : Text
  currentTask : Option Text
  suggestedResponse : Option Text
deriving DecidableEq

/-- One block appended to `reflections.log` by a compaction: the full
pre-compaction store content and the before/after sizes it records. -/
structure ReflectionEntry where
  before : Text
  beforeLen : Nat
  afterLen : Nat
deriving DecidableEq

/-- The per-project memory directory: `observations.md` (none = file
absent), `.observer-state.json` (none = absent or unparsable) and the
`reflections.log` archive as the list of its appended blocks. -/
structure MemoryState where
  observations : Option Text
  observerState : Option ObserverState
  reflections : List ReflectionEntry
deriving DecidableEq

/-- `load_state`: the stored record, or the default
record: line 0, empty transcript path, no task or response. -/
def loadState (st : MemoryState) : ObserverState :=
  st.observerState.getD ⟨0, [], none, none⟩

/-- `save_state`: the record written wholesale; task/response only when
truthy (non-empty). -/
def savedState (lastLine : Nat) (transcriptPath : Text)
    (currentTask suggestedResponse : Option Text) : ObserverState :=
  { lastObservedLine := lastLine
    transcriptPath := transcriptPath
    currentTask :=
      match currentTask with
      | some t => if t ≠ [] then some t else none
      | none => none
    suggestedResponse :=
      match suggestedResponse with
      | some r => if r ≠ [] then some r else none
      | none => none }

/-! ## The summarization engine and `call_claude` -/

/-- Raw outcome of the `claude -p` subprocess: a zero-exit run with its
stdout, or any failure (non-zero exit, timeout, CLI not found, exception). -/
inductive EngineOutcome where
  | ok (stdout : Text)
  | err
deriving DecidableEq

/-- The opaque engine: a function of the `OM_HOOK_ACTIVE` flag placed in the
child environment and of the piped prompt. -/
abbrev Engine := Bool → Text → EngineOutcome

/-- The prompt piped to the engine: system prompt wrapped in an
`<instructions>` frame followed by the user prompt. -/
def instrWrap (systemPrompt userPrompt : Text) : Text :=
  ("<instructions>\n").data ++ systemPrompt ++ ("\n</instructions>\n\n").data ++ userPrompt

/-- `call_claude`: guard check, engine subprocess (with `OM_HOOK_ACTIVE=1`
in its environment), stripped stdout on success, `none` otherwise.  Also
returns the list of prompts actually piped to the engine. -/
def callClaude (hookActive : Bool) (engine : Engine)
    (systemPrompt userPrompt : Text) : Option Text × List Text :=
  if hookActive then (none, [])
  else
    let fullPrompt := instrWrap systemPrompt userPrompt
    match engine true fullPrompt with
    | .ok out => (if pyStrip out = [] then none else some (pyStrip out), [fullPrompt])
    | .err => (none, [fullPrompt])

/-! ## Observer prompt building and output parsing -/

/-- `build_observer_prompt` (observer.py lines 299-318). -/
def buildObserverPrompt (newMessagesText existingObservations today : Text) : Text :=
  (if pyStrip existingObservations ≠ [] then
    ("## Previous Observations\n").data ++
    pyStrip existingObservations ++
    ("\n\n---\n").data ++
    ("Do NOT repeat any of the above observations. Only extract genuinely new information.\n").data
  else []) ++
  ("\n## New Messages to Observe\n\n").data ++
  newMessagesText ++
  ("\n\n---\n\n").data ++
  ("## Your Task\n\n").data ++
  ("Extract new observations from the messages above. ").data ++
  ("Today").data ++ [apos] ++ ("s date is ").data ++ today ++ (". ").data ++
  ("Use actual timestamps from the conversation when available. ").data ++
  ("Return ONLY the new observations block, or NO_NEW_OBSERVATIONS if nothing meaningful to note.").data

/-- `parse_observer_output`: the three optional XML sections, with the
whole-output fallback for observations. -/
def parseObserverOutput (raw : Text) : Text × Option Text × Option Text :=
  let observations :=
    match extractSection ("<observations>").data ("</observations>").data raw with
    | some g => pyStrip g
    | none =>
      pyStrip
        (removeSections ("<suggested-response>").data ("</suggested-response>").data
          (removeSections ("<current-task>").data ("</current-task>").data raw))
  let currentTask :=
    match extractSection ("<current-task>").data ("</current-task>").data raw with
    | some g => if pyStrip g ≠ [] then some (pyStrip g) else none
    | none => none
  let suggestedResponse :=
    match extractSection ("<suggested-response>").data ("</suggested-response>").data raw with
    | some g => if pyStrip g ≠ [] then some (pyStrip g) else none
    | none => none
  (observations, currentTask, suggestedResponse)

/-! ## Reflection (observer.py run_reflector, reflector.py reflect) -/

/-- The user prompt built by observer.py `run_reflector`. -/
def runReflectorUserPrompt (content today : Text) : Text :=
  ("## Observations to Reflect On\n\n").data ++ content ++
  ("\n\n---\n\n").data ++
  ("Condense these observations. Today").data ++ [apos] ++ ("s date is ").data ++
  today ++ (". ").data ++
  ("Current size: ").data ++ natText content.length ++ (" characters. ").data ++
  ("Target: ~").data ++ natText (content.length / 2) ++ (" characters.").data

/-- The user prompt built by reflector.py `reflect`. -/
def reflectUserPrompt (content today : Text) : Text :=
  ("## Observations to Reflect On\n\n").data ++ content ++
  ("\n\n---\n\n").data ++
  ("Condense these observations. Today").data ++ [apos] ++ ("s date is ").data ++
  today ++ (". ").data ++
  ("Current size: ").data ++ natText content.length ++ (" characters (").data ++
  natText (content.length / 4) ++ (" approx tokens). ").data ++
  ("Target: ~").data ++ natText (content.length / 2) ++ (" characters.").data

/-- observer.py `run_reflector` (lines 321-364): threshold 40000, validity
threshold 100, archive then replace with `result.strip() + '\n'`. -/
def runReflector (hookActive : Bool) (reflectorSys today : Text) (engine : Engine)
    (st : MemoryState) : MemoryState × List Text :=
  match st.observations with
  | none => (st, [])
  | some content =>
    if content.length < 40000 then (st, [])
    else if reflectorSys = [] then (st, [])
    else
      match callClaude hookActive engine reflectorSys (runReflectorUserPrompt content today) with
      | (none, trace) => (st, trace)
      | (some result, trace) =>
        if (pyStrip result).length < 100 then (st, trace)
        else
          ({ st with
              reflections := st.reflections ++ [⟨content, content.length, result.length⟩]
              observations := some (pyStrip result ++ ("\n").data) }, trace)

/-- observer.py lines 465-468: re-read the store after an append and run the
reflector when it reaches the 40000-char threshold. -/
def maybeReflect (hookActive : Bool) (reflectorSys today : Text) (engine : Engine)
    (st : MemoryState) : MemoryState × List Text :=
  if 40000 ≤ (st.observations.getD []).length then
    runReflector hookActive reflectorSys today engine st
  else (st, [])

/-- reflector.py `reflect` (lines 117-171): returns the new state, the
success flag and the engine-prompt trace.  `force` skips the 5000-char
minimum; validity threshold 50; the replacement text is fence-stripped. -/
def reflect (hookActive force : Bool) (reflectorSys today : Text) (engine : Engine)
    (st : MemoryState) : MemoryState × Bool × List Text :=
  match st.observations with
  | none => (st, false, [])
  | some content =>
    if pyStrip content = [] then (st, false, [])
    else if ¬force ∧ content.length < 5000 then (st, false, [])
    else if reflectorSys = [] then (st, false, [])
    else
      match callClaude hookActive engine reflectorSys (reflectUserPrompt content today) with
      | (none, trace) => (st, false, trace)
      | (some result, trace) =>
        if (pyStrip result).length < 50 then (st, false, trace)
        else
          let reflected := stripFenceEnd (stripFenceStart (pyStrip result))
          ({ st with
              reflections := st.reflections ++ [⟨content, content.length, reflected.length⟩]
              observations := some (reflected ++ ("\n").data) }, true, trace)

/-- reflector.py `main` (PreCompact hook): recursion guard, stdin parse,
transcript-path check, then a non-forced `reflect`. -/
def reflectorMain (hookActive : Bool) (input : Option Text) (reflectorSys today : Text)
    (engine : Engine) (st : MemoryState) : MemoryState × List Text :=
  if hookActive then (st, [])
  else
    match input with
    | none => (st, [])
    | some transcriptPath =>
      if transcriptPath = [] then (st, [])
      else
        let r := reflect hookActive false reflectorSys today engine st
        (r.1, r.2.2)

/-! ## Observer main (observer.py lines 367-478) -/

/-- The Stop-hook JSON read from stdin, reduced to the fields the observer
uses. -/
structure HookInput where
  stopHookActive : Bool
  transcriptPath : Text
deriving DecidableEq

/-- The maximum line number over all messages (observer.py line 437). -/
def maxLineNum (messages : List Entry) : Nat :=
  messages.foldl (fun a m => Nat.max a m.lineNum) 0

/-- observer.py lines 399-404: the cursor actually used, reset to 0 when the
stored transcript path differs from the current one. -/
def effectiveLastLine (st : MemoryState) (transcriptPath : Text) : Nat :=
  let s := loadState st
  if s.transcriptPath ≠ transcriptPath then 0 else s.lastObservedLine

/-- observer.py line 406: entries at or beyond the effective cursor. -/
def selectNewMessages (st : MemoryState) (transcriptPath : Text)
    (allMessages : List Entry) : List Entry :=
  allMessages.filter (fun m => effectiveLastLine st transcriptPath ≤ m.lineNum)

/-- observer.py line 411: the formatted delta of the newly selected
entries. -/
def observerDelta (st : MemoryState) (transcriptPath : Text)
    (allMessages : List Entry) : Text :=
  formatMessagesForObserver (selectNewMessages st transcriptPath allMessages)

/-- observer.py line 417: the existing store content, stripped, empty when
the store file is absent. -/
def loadExisting (st : MemoryState) : Text :=
  match st.observations with | some c => pyStrip c | none => []

/-- observer.py lines 426-431: the user prompt, rebuilt from the trailing
50000 delta characters when the first build exceeds 80000 characters. -/
def observerUserPrompt (st : MemoryState) (transcriptPath : Text)
    (allMessages : List Entry) (today : Text) : Text :=
  let newText := observerDelta st transcriptPath allMessages
  let existing := loadExisting st
  let userPrompt := buildObserverPrompt newText existing today
  if 80000 < userPrompt.length then
    buildObserverPrompt (takeRightText newText 50000) existing today
  else userPrompt

/-- observer.py lines 395-478 (after the early-return gates): cursor load,
delta selection and gating, prompt building with the one-shot 80000-char cap,
the engine call and the four outcome branches, then the conditional
reflection.  Returns the new memory state and the engine-prompt trace. -/
def observerExtract (hookActive : Bool) (inp : HookInput) (allMessages : List Entry)
    (observerSys reflectorSys today : Text) (engine : Engine)
    (st : MemoryState) : MemoryState × List Text :=
  let newMessages := selectNewMessages st inp.transcriptPath allMessages
  if newMessages = [] then (st, [])
  else
    let newText := formatMessagesForObserver newMessages
    if newText.length < 2000 then (st, [])
    else
      let existing := loadExisting st
      if observerSys = [] then (st, [])
      else
        let userPrompt := observerUserPrompt st inp.transcriptPath allMessages today
        let maxL := maxLineNum allMessages
        match callClaude hookActive engine observerSys userPrompt with
        | (none, trace) =>
          ({ st with observerState := some (savedState (maxL + 1) inp.transcriptPath none none) },
            trace)
        | (some result, trace) =>
          if pyStrip result = ("NO_NEW_OBSERVATIONS").data then
            ({ st with observerState := some (savedState (maxL + 1) inp.transcriptPath none none) },
              trace)
          else
            let parsed := parseObserverOutput result
            let obsText := pyStrip (stripFenceEnd (stripFenceStart parsed.1))
            if obsText = [] then
              ({ st with
                  observerState :=
                    some (savedState (maxL + 1) inp.transcriptPath parsed.2.1 parsed.2.2) },
                trace)
            else
              let newContent :=
                (st.observations.getD []) ++
                (if existing ≠ [] then ("\n\n").data else []) ++
                obsText ++ ("\n").data
              let st2 : MemoryState :=
                { st with
                    observations := some newContent
                    observerState :=
                      some (savedState (maxL + 1) inp.transcriptPath parsed.2.1 parsed.2.2) }
              match maybeReflect hookActive reflectorSys today engine st2 with
              | (st3, rtrace) => (st3, trace ++ rtrace)

/-- observer.py `main`: the recursion guard, stdin parse, stop-hook and
transcript-path gates, the empty-transcript gate, then `observerExtract`. -/
def observerMain (hookActive : Bool) (input : Option HookInput) (transcriptExists : Bool)
    (allMessages : List Entry) (observerSys reflectorSys today : Text) (engine : Engine)
    (st : MemoryState) : MemoryState × List Text :=
  if hookActive then (st, [])
  else
    match input with
    | none => (st, [])
    | some inp =>
      if inp.stopHookActive then (st, [])
      else if inp.transcriptPath = [] then (st, [])
      else if ¬transcriptExists then (st, [])
      else if allMessages = [] then (st, [])
      else observerExtract hookActive inp allMessages observerSys reflectorSys today engine st

/-! ## Context loader (load-observations.py) -/

/-- The fixed elision marker prepended when the store is truncated for
injection. -/
def elisionMarker : Text := ("[... older observations truncated ...]\n\n").data

/-- The structured injection payload built by the Context Loader: the
(possibly truncated) observations section, the continuity section and the
approximate token count. -/
structure LoaderPayload where
  observationsSection : Text
  continuity : Text
  approxTokens : Nat
deriving DecidableEq

/-- load-observations.py `main`: read-only rendering of the injection
payload.  Returns the payload (or none) together with the memory state,
which every branch passes through unchanged. -/
def loadObservationsMain (input : Option Text) (st : MemoryState) :
    Option LoaderPayload × MemoryState :=
  match input with
  | none => (none, st)
  | some transcriptPath =>
    if transcriptPath = [] then (none, st)
    else
      match st.observations with
      | none => (none, st)
      | some obs =>
        if obs.length = 0 then (none, st)
        else if pyStrip obs = [] then (none, st)
        else
          let charCount := obs.length
          let approxTokens := charCount / 4
          let observations :=
            if 60000 < charCount then elisionMarker ++ takeRightText obs 60000 else obs
          let currentTask := (loadState st).currentTask
          let suggestedResponse := (loadState st).suggestedResponse
          let continuity :=
            if currentTask.isSome ∨ suggestedResponse.isSome then
              ("\n### Task Continuity (from last session)\n").data ++
              (match currentTask with
               | some t => ("- **Last task**: ").data ++ t ++ ("\n").data
               | none => []) ++
              (match suggestedResponse with
               | some r => ("- **Suggested next step**: ").data ++ r ++ ("\n").data
               | none => [])
            else []
          (some ⟨observations, continuity, approxTokens⟩, st)

/-! ## Helper lemmas about the text primitives -/

theorem dropWhile_eq_self_of_none {p : Char → Bool} {l : Text}
    (h : ∀ c ∈ l, p c = false) : l.dropWhile p = l := by
  cases l with
  | nil => rfl
  | cons a t => simp [List.dropWhile_cons, h a (by simp)]

theorem pyStrip_of_no_space {l : Text} (h : ∀ c ∈ l, isSpaceChar c = false) :
    pyStrip l = l := by
  unfold pyStrip
  rw [dropWhile_eq_self_of_none h,
    dropWhile_eq_self_of_none (fun c hc => h c (List.mem_reverse.mp hc)),
    List.reverse_reverse]

theorem pyStrip_replicate {n : Nat} {c : Char} (h : isSpaceChar c = false) :
    pyStrip (List.replicate n c) = List.replicate n c :=
  pyStrip_of_no_space (fun x hx => by rw [List.eq_of_mem_replicate hx]; exact h)

theorem replicate_ne_nil_of_pos {n : Nat} (h : n ≠ 0) (c : Char) :
    List.replicate n c ≠ [] := by
  intro hcon
  have hl := congrArg List.length hcon
  rw [List.length_replicate] at hl
  exact h (by simpa using hl)

theorem dropWhile_prefix_eq_self {p : Char → Bool} {y z : Text}
    (hy : y.dropWhile p = y) (hz : z <+: y) : z.dropWhile p = z := by
  cases z with
  | nil => rfl
  | cons a t =>
    cases y with
    | nil => exact absurd (List.prefix_nil.mp hz) (by simp)
    | cons b u =>
      obtain ⟨hab, -⟩ := List.cons_prefix_cons.mp hz
      subst hab
      have hpa : p a = false := by
        by_contra hc
        have hpa : p a = true := by simpa using hc
        rw [List.dropWhile_cons, hpa] at hy
        have hlen : (u.dropWhile p).length ≤ u.length :=
          (List.dropWhile_sublist p).length_le
        simp at hy
        rw [hy] at hlen
        simp at hlen
      simp [List.dropWhile_cons, hpa]

theorem pyStrip_idem (s : Text) : pyStrip (pyStrip s) = pyStrip s := by
  unfold pyStrip
  set q := isSpaceChar with hq
  set y := s.dropWhile q with hy
  have hyy : y.dropWhile q = y := by rw [hy]; exact List.dropWhile_idempotent q s
  set e := (y.reverse.dropWhile q).reverse with he
  have hpre : e <+: y := by
    rw [he]
    have : y.reverse.dropWhile q <:+ y.reverse := List.dropWhile_suffix q
    have h2 := List.reverse_prefix.mpr this
    rwa [List.reverse_reverse] at h2
  have h1 : e.dropWhile q = e := dropWhile_prefix_eq_self hyy hpre
  rw [h1, he, List.reverse_reverse, List.dropWhile_idempotent]

/-! ## Helper lemmas about the pipeline -/

/-- The persisted cursor value (0 when no state is stored). -/
def cursorOf (st : MemoryState) : Nat := (loadState st).lastObservedLine

theorem extractTextContent_user (k : Nat) (s : Text) (h : s ≠ []) :
    extractTextContent ⟨k, ("user").data, .str s, []⟩ = ("[User]: ").data ++ s := by
  unfold extractTextContent
  rw [if_pos (Or.inr rfl)]
  simp [extractTextFromContent, h]

theorem formatMessages_singleton (e : Entry) (h : extractTextContent e ≠ []) :
    formatMessagesForObserver [e] = extractTextContent e := by
  simp [formatMessagesForObserver, joinText, h, List.intercalate]

theorem maxLineNum_singleton (e : Entry) : maxLineNum [e] = e.lineNum := by
  simp [maxLineNum]

theorem foldl_max_le_init (msgs : List Entry) (a : Nat) :
    a ≤ msgs.foldl (fun x m => Nat.max x m.lineNum) a := by
  induction msgs generalizing a with
  | nil => exact Nat.le_refl a
  | cons hd tl ih =>
    exact Nat.le_trans (Nat.le_max_left a hd.lineNum) (ih (Nat.max a hd.lineNum))

theorem foldl_max_mono {msgs : List Entry} {a b : Nat} (h : a ≤ b) :
    msgs.foldl (fun x m => Nat.max x m.lineNum) a
      ≤ msgs.foldl (fun x m => Nat.max x m.lineNum) b := by
  induction msgs generalizing a b with
  | nil => exact h
  | cons hd tl ih =>
    exact ih (Nat.max_le.mpr
      ⟨Nat.le_trans h (Nat.le_max_left b hd.lineNum), Nat.le_max_right b hd.lineNum⟩)

theorem lineNum_le_maxLineNum {m : Entry} {msgs : List Entry} (h : m ∈ msgs) :
    m.lineNum ≤ maxLineNum msgs := by
  unfold maxLineNum
  induction msgs with
  | nil => cases h
  | cons hd tl ih =>
    rcases List.mem_cons.mp h with h1 | h2
    · subst h1
      exact Nat.le_trans (Nat.le_max_right 0 m.lineNum) (foldl_max_le_init tl _)
    · exact Nat.le_trans (ih h2) (foldl_max_mono (Nat.zero_le _))

theorem runReflector_observerState (g : Bool) (rs td : Text) (e : Engine) (st : MemoryState) :
    (runReflector g rs td e st).1.observerState = st.observerState := by
  unfold runReflector
  repeat' split
  all_goals rfl

theorem maybeReflect_observerState (g : Bool) (rs td : Text) (e : Engine) (st : MemoryState) :
    (maybeReflect g rs td e st).1.observerState = st.observerState := by
  unfold maybeReflect
  split
  · exact runReflector_observerState g rs td e st
  · rfl

theorem observerMain_eq_extract {inp : HookInput} {allMessages : List Entry}
    {oS rS td : Text} {e : Engine} {st : MemoryState}
    (h2 : inp.stopHookActive = false) (h3 : inp.transcriptPath ≠ [])
    (h5 : allMessages ≠ []) :
    observerMain false (some inp) true allMessages oS rS td e st
      = observerExtract false inp allMessages oS rS td e st := by
  unfold observerMain
  simp [h2, h3, h5]

theorem callClaude_false_trace (e : Engine) (s u : Text) :
    (callClaude false e s u).2 = [instrWrap s u] := by
  unfold callClaude
  rcases h : e true (instrWrap s u) with out | _ <;> simp [h]

theorem observerExtract_reached {inp : HookInput} {allMessages : List Entry}
    {oS rS td : Text} {e : Engine} {st : MemoryState}
    (hng : selectNewMessages st inp.transcriptPath allMessages ≠ [])
    (hlen : ¬(observerDelta st inp.transcriptPath allMessages).length < 2000)
    (hsys : oS ≠ []) :
    ∃ task resp,
      (observerExtract false inp allMessages oS rS td e st).1.observerState
          = some (savedState (maxLineNum allMessages + 1) inp.transcriptPath task resp)
      ∧ (observerExtract false inp allMessages oS rS td e st).2.head?
          = some (instrWrap oS (observerUserPrompt st inp.transcriptPath allMessages td)) := by
  have hlen' : ¬(formatMessagesForObserver
      (selectNewMessages st inp.transcriptPath allMessages)).length < 2000 := hlen
  simp only [observerExtract]
  rw [if_neg hng, if_neg hlen', if_neg hsys]
  rcases hc : callClaude false e oS (observerUserPrompt st inp.transcriptPath allMessages td)
    with ⟨res, trace⟩
  have htr : trace = [instrWrap oS (observerUserPrompt st inp.transcriptPath allMessages td)] := by
    have := callClaude_false_trace e oS (observerUserPrompt st inp.transcriptPath allMessages td)
    rw [hc] at this
    exact this
  subst htr
  cases res with
  | none => exact ⟨none, none, rfl, rfl⟩
  | some result =>
    dsimp only
    by_cases hsent : pyStrip result = ("NO_NEW_OBSERVATIONS").data
    · rw [if_pos hsent]
      exact ⟨none, none, rfl, rfl⟩
    · rw [if_neg hsent]
      by_cases hobs :
          pyStrip (stripFenceEnd (stripFenceStart (parseObserverOutput result).1)) = []
      · simp only [hobs]
        rw [if_pos trivial]
        exact ⟨(parseObserverOutput result).2.1, (parseObserverOutput result).2.2, rfl, rfl⟩
      · rw [if_neg hobs]
        rcases hmr : maybeReflect false rS td e _ with ⟨st3, rtrace⟩
        refine ⟨(parseObserverOutput result).2.1, (parseObserverOutput result).2.2, ?_, rfl⟩
        have hkeep := maybeReflect_observerState false rS td e
          ({ st with
              observations := some
                ((st.observations.getD []) ++
                  (if loadExisting st ≠ [] then ("\n\n").data else []) ++
                  pyStrip (stripFenceEnd (stripFenceStart (parseObserverOutput result).1)) ++
                  ("\n").data)
              observerState :=
                some (savedState (maxLineNum allMessages + 1) inp.transcriptPath
                  (parseObserverOutput result).2.1 (parseObserverOutput result).2.2) })
        rw [hmr] at hkeep
        exact hkeep

theorem observerExtract_noop {inp : HookInput} {allMessages : List Entry}
    {oS rS td : Text} {e : Engine} {st : MemoryState}
    (hng : selectNewMessages st inp.transcriptPath allMessages ≠ [])
    (hlen : ¬(observerDelta st inp.transcriptPath allMessages).length < 2000)
    (hsys : oS ≠ [])
    (hres : (callClaude false e oS (observerUserPrompt st inp.transcriptPath allMessages td)).1 = none
      ∨ (callClaude false e oS (observerUserPrompt st inp.transcriptPath allMessages td)).1
          = some (("NO_NEW_OBSERVATIONS").data)) :
    observerExtract false inp allMessages oS rS td e st
      = ({ st with
            observerState :=
              some (savedState (maxLineNum allMessages + 1) inp.transcriptPath none none) },
         [instrWrap oS (observerUserPrompt st inp.transcriptPath allMessages td)]) := by
  have hlen' : ¬(formatMessagesForObserver
      (selectNewMessages st inp.transcriptPath allMessages)).length < 2000 := hlen
  simp only [observerExtract]
  rw [if_neg hng, if_neg hlen', if_neg hsys]
  rcases hc : callClaude false e oS (observerUserPrompt st inp.transcriptPath allMessages td)
    with ⟨res, trace⟩
  have htr : trace = [instrWrap oS (observerUserPrompt st inp.transcriptPath allMessages td)] := by
    have := callClaude_false_trace e oS (observerUserPrompt st inp.transcriptPath allMessages td)
    rw [hc] at this
    exact this
  subst htr
  rw [hc] at hres
  cases res with
  | none => rfl
  | some result =>
    dsimp only
    rcases hres with h | h
    · simp at h
    · have hr : result = ("NO_NEW_OBSERVATIONS").data := by
        simpa using h
      subst hr
      rw [if_pos (by decide)]

theorem buildObserverPrompt_length_ge (nt ex td : Text) (hex : pyStrip ex ≠ []) :
    (pyStrip ex).length + nt.length ≤ (buildObserverPrompt nt ex td).length := by
  unfold buildObserverPrompt
  rw [if_pos hex]
  simp only [List.length_append]
  omega

theorem le_instrWrap_length (s u : Text) : u.length ≤ (instrWrap s u).length := by
  unfold instrWrap
  simp only [List.length_append]
  omega

theorem observerUserPrompt_of_big {st : MemoryState} {p : Text} {msgs : List Entry} {td : Text}
    (h : 80000 < (buildObserverPrompt (observerDelta st p msgs) (loadExisting st) td).length) :
    observerUserPrompt st p msgs td
      = buildObserverPrompt (takeRightText (observerDelta st p msgs) 50000) (loadExisting st) td := by
  unfold observerUserPrompt
  rw [if_pos h]

theorem observerUserPrompt_of_small {st : MemoryState} {p : Text} {msgs : List Entry} {td : Text}
    (h : ¬80000 < (buildObserverPrompt (observerDelta st p msgs) (loadExisting st) td).length) :
    observerUserPrompt st p msgs td
      = buildObserverPrompt (observerDelta st p msgs) (loadExisting st) td := by
  unfold observerUserPrompt
  rw [if_neg h]

/-- An engine that always fails (subprocess error), used in concrete runs. -/
def engineErr : Engine := fun _ _ => .err

/-! ## Claim C6 -/

/-- C6: if the stored transcript identity differs from the current one, the
next extraction treats the cursor as 0 regardless of the stored value, so
every entry of the new transcript is selected for the delta. -/
theorem c6_transcript_switch_resets_cursor
    (st : MemoryState) (transcriptPath : Text) (allMessages : List Entry)
    (h : (loadState st).transcriptPath ≠ transcriptPath) :
    effectiveLastLine st transcriptPath = 0
      ∧ selectNewMessages st transcriptPath allMessages = allMessages := by
  have h0 : effectiveLastLine st transcriptPath = 0 := by
    unfold effectiveLastLine
    rw [if_pos h]
  refine ⟨h0, ?_⟩
  simp only [selectNewMessages, h0]
  exact List.filter_eq_self.mpr (fun a _ => by simp)

theorem c6_transcript_switch_resets_cursor_witness :
    effectiveLastLine ⟨none, some ⟨7, ("old").data, none, none⟩, []⟩ ("new").data = 0
      ∧ selectNewMessages ⟨none, some ⟨7, ("old").data, none, none⟩, []⟩ ("new").data
          [⟨0, ("user").data, .str ("hi").data, []⟩]
        = [⟨0, ("user").data, .str ("hi").data, []⟩] :=
  c6_transcript_switch_resets_cursor _ _ _ (by decide)

/-! ## Claim C7 -/

/-- C7: every pipeline invocation that observes the reentrancy guard flag
already set performs no state change and never invokes the engine (empty
engine trace); and the guard flag is set in the environment of the engine call
before the engine is invoked (the result of `callClaude` depends only on the
behaviour of the engine under a set flag). -/
theorem c7_reentrancy_guard :
    (∀ (input : Option HookInput) (tE : Bool) (msgs : List Entry) (oS rS td : Text)
        (e : Engine) (st : MemoryState),
        observerMain true input tE msgs oS rS td e st = (st, []))
    ∧ (∀ (input : Option Text) (rS td : Text) (e : Engine) (st : MemoryState),
        reflectorMain true input rS td e st = (st, []))
    ∧ (∀ (force : Bool) (rS td : Text) (e : Engine) (st : MemoryState),
        (reflect true force rS td e st).1 = st ∧ (reflect true force rS td e st).2.2 = [])
    ∧ (∀ (g : Bool) (e1 e2 : Engine) (s u : Text),
        (∀ p, e1 true p = e2 true p) → callClaude g e1 s u = callClaude g e2 s u) := by
  refine ⟨?_, ?_, ?_, ?_⟩
  · intro input tE msgs oS rS td e st
    unfold observerMain
    simp
  · intro input rS td e st
    unfold reflectorMain
    simp
  · intro force rS td e st
    unfold reflect
    rcases hobs : st.observations with _ | content
    · exact ⟨rfl, rfl⟩
    · dsimp only
      split_ifs <;> exact ⟨rfl, rfl⟩
  · intro g e1 e2 s u h
    cases g with
    | true => rfl
    | false =>
      unfold callClaude
      dsimp only
      rw [h (instrWrap s u)]

theorem c7_reentrancy_guard_witness :
    observerMain true none true [] [] [] [] engineErr ⟨none, none, []⟩ = (⟨none, none, []⟩, [])
      ∧ reflectorMain true none [] [] engineErr ⟨none, none, []⟩ = (⟨none, none, []⟩, [])
      ∧ (reflect true true [] [] engineErr ⟨none, none, []⟩).1 = ⟨none, none, []⟩
      ∧ callClaude false engineErr [] [] = callClaude false engineErr [] [] :=
  ⟨c7_reentrancy_guard.1 none true [] [] [] [] engineErr ⟨none, none, []⟩,
    c7_reentrancy_guard.2.1 none [] [] engineErr ⟨none, none, []⟩,
    (c7_reentrancy_guard.2.2.1 true [] [] engineErr ⟨none, none, []⟩).1,
    c7_reentrancy_guard.2.2.2 false engineErr engineErr [] [] (fun _ => rfl)⟩

/-! ## More shared helpers -/

theorem observerMain_false_some (inp : HookInput) (tE : Bool) (msgs : List Entry)
    (oS rS td : Text) (e : Engine) (st : MemoryState) :
    observerMain false (some inp) tE msgs oS rS td e st
      = if inp.stopHookActive then (st, [])
        else if inp.transcriptPath = [] then (st, [])
        else if ¬tE then (st, [])
        else if msgs = [] then (st, [])
        else observerExtract false inp msgs oS rS td e st := rfl

/-- Shared: a delta below the 2000-char minimum makes the whole invocation a
no-op. -/
theorem observerMain_small_delta {inp : HookInput} {tE : Bool} {msgs : List Entry}
    {oS rS td : Text} {e : Engine} {st : MemoryState}
    (h : (observerDelta st inp.transcriptPath msgs).length < 2000) :
    observerMain false (some inp) tE msgs oS rS td e st = (st, []) := by
  have h' : (formatMessagesForObserver (selectNewMessages st inp.transcriptPath msgs)).length
      < 2000 := h
  rw [observerMain_false_some]
  split_ifs with g1 g2 g3 g4 <;> try rfl
  simp only [observerExtract]
  by_cases hng : selectNewMessages st inp.transcriptPath msgs = []
  · rw [if_pos hng]
  · rw [if_neg hng, if_pos h']

theorem effectiveLastLine_of_same {st : MemoryState} {p : Text}
    (hid : (loadState st).transcriptPath = p) :
    effectiveLastLine st p = cursorOf st := by
  unfold effectiveLastLine
  rw [if_neg (by simp [hid])]
  rfl

theorem effectiveLastLine_of_noState {st : MemoryState} (h : st.observerState = none)
    (p : Text) : effectiveLastLine st p = 0 := by
  unfold effectiveLastLine loadState
  rw [h]
  simp only [Option.getD_none]
  exact ite_self 0

theorem callClaude_false_result (e : Engine) (s u : Text) :
    (callClaude false e s u).1
      = match e true (instrWrap s u) with
        | .ok out => if pyStrip out = [] then none else some (pyStrip out)
        | .err => none := by
  unfold callClaude
  dsimp only
  rcases h : e true (instrWrap s u) with out | _ <;> simp [h]

theorem loadExisting_strip (st : MemoryState) : pyStrip (loadExisting st) = loadExisting st := by
  unfold loadExisting
  rcases st.observations with _ | c
  · rfl
  · exact pyStrip_idem c

/-- A user entry whose text is `n` copies of `c`, at line 0. -/
def mkUserEntry (n : Nat) (c : Char) : Entry :=
  ⟨0, ("user").data, .str (List.replicate n c), []⟩

/-- The empty memory directory. -/
def st0 : MemoryState := ⟨none, none, []⟩

theorem selectNew_all {st : MemoryState} {p : Text} (msgs : List Entry)
    (h0 : effectiveLastLine st p = 0) : selectNewMessages st p msgs = msgs := by
  unfold selectNewMessages
  simp only [h0]
  exact List.filter_eq_self.mpr (fun a _ => by simp)

theorem observerDelta_single {st : MemoryState} {p : Text}
    (h0 : effectiveLastLine st p = 0) {n : Nat} (c : Char) (hn : n ≠ 0) :
    observerDelta st p [mkUserEntry n c] = ("[User]: ").data ++ List.replicate n c := by
  have hrep : List.replicate n c ≠ [] := replicate_ne_nil_of_pos hn c
  have hext : extractTextContent (mkUserEntry n c) = ("[User]: ").data ++ List.replicate n c :=
    extractTextContent_user 0 _ hrep
  unfold observerDelta
  rw [selectNew_all _ h0, formatMessages_singleton _ (by rw [hext]; simp), hext]

/-- A memory directory whose stored cursor is 0 for transcript path `t`. -/
def stT : MemoryState := ⟨none, some ⟨0, ("t").data, none, none⟩, []⟩

theorem effectiveLastLine_stT : effectiveLastLine stT ("t").data = 0 := by
  rw [@effectiveLastLine_of_same stT (("t").data) rfl]
  rfl

/-! ## Claim C5 -/

/-- C5: for a store of `60000+K` characters (`K>0`, non-blank), the Context
Loader produces a payload whose observations section is exactly the trailing
60000 characters of the store prefixed by the fixed elision marker, and the
loader never mutates the memory state. -/
theorem c5_loader_truncation_preserves_tail
    (transcriptPath : Text) (st : MemoryState) (obs : Text) (K : Nat)
    (hpath : transcriptPath ≠ [])
    (hobs : st.observations = some obs)
    (hlen : obs.length = 60000 + K) (hK : 0 < K)
    (hblank : pyStrip obs ≠ []) :
    (∃ payload, (loadObservationsMain (some transcriptPath) st).1 = some payload
        ∧ payload.observationsSection = elisionMarker ++ takeRightText obs 60000)
      ∧ ∀ (input : Option Text) (st2 : MemoryState),
          (loadObservationsMain input st2).2 = st2 := by
  constructor
  · unfold loadObservationsMain
    dsimp only
    rw [if_neg hpath, hobs]
    dsimp only
    rw [if_neg (by omega), if_neg hblank]
    rw [if_pos (by omega)]
    exact ⟨_, rfl, rfl⟩
  · intro input st2
    unfold loadObservationsMain
    repeat' split
    all_goals rfl

theorem c5_loader_truncation_preserves_tail_witness :
    (∃ payload,
        (loadObservationsMain (some ("t").data)
            ⟨some (List.replicate 60001 'a'), none, []⟩).1 = some payload
          ∧ payload.observationsSection
              = elisionMarker ++ takeRightText (List.replicate 60001 'a') 60000)
      ∧ ∀ (input : Option Text) (st2 : MemoryState),
          (loadObservationsMain input st2).2 = st2 :=
  c5_loader_truncation_preserves_tail ("t").data ⟨some (List.replicate 60001 'a'), none, []⟩
    (List.replicate 60001 'a') 1 (by decide) rfl
    (by rw [List.length_replicate]) (by decide)
    (by
      rw [pyStrip_replicate (by decide)]
      exact replicate_ne_nil_of_pos (by decide) 'a')

/-! ## Claim C4 -/

/-- C4: a delta below the 2000-char minimum stops the invocation without
invoking the engine, without advancing the cursor and without touching the
store (the whole invocation is the identity); once the delta is at or above
the minimum (and the other invocation gates pass), the engine is invoked and
the cursor advances to `max(sequence_index)+1`, strictly above the effective
cursor. -/
theorem c4_delta_minimum_gate :
    (∀ (inp : HookInput) (tE : Bool) (msgs : List Entry) (oS rS td : Text)
        (e : Engine) (st : MemoryState),
        (observerDelta st inp.transcriptPath msgs).length < 2000 →
        observerMain false (some inp) tE msgs oS rS td e st = (st, []))
    ∧ (∀ (inp : HookInput) (msgs : List Entry) (oS rS td : Text)
        (e : Engine) (st : MemoryState),
        inp.stopHookActive = false → inp.transcriptPath ≠ [] → msgs ≠ [] →
        selectNewMessages st inp.transcriptPath msgs ≠ [] →
        2000 ≤ (observerDelta st inp.transcriptPath msgs).length →
        oS ≠ [] →
        (observerMain false (some inp) true msgs oS rS td e st).2 ≠ []
          ∧ cursorOf (observerMain false (some inp) true msgs oS rS td e st).1
              = maxLineNum msgs + 1
          ∧ effectiveLastLine st inp.transcriptPath < maxLineNum msgs + 1) := by
  constructor
  · intro inp tE msgs oS rS td e st h
    exact observerMain_small_delta h
  · intro inp msgs oS rS td e st h1 h2 h3 hng hlen hsys
    rw [observerMain_eq_extract h1 h2 h3]
    obtain ⟨task, resp, hstate, hhead⟩ :=
      @observerExtract_reached inp msgs oS rS td e st hng (by omega) hsys
    refine ⟨?_, ?_, ?_⟩
    · intro hnil
      rw [hnil] at hhead
      simp at hhead
    · unfold cursorOf loadState
      rw [hstate]
      rfl
    · obtain ⟨m, hm⟩ := List.exists_mem_of_ne_nil _ hng
      unfold selectNewMessages at hm
      obtain ⟨hmem, hcond⟩ := List.mem_filter.mp hm
      have hle : effectiveLastLine st inp.transcriptPath ≤ m.lineNum := by simpa using hcond
      have hmax := lineNum_le_maxLineNum hmem
      omega

theorem c4_delta_minimum_gate_witness :
    observerMain false (some ⟨false, ("t").data⟩) true
        [⟨0, ("user").data, .str ("hi").data, []⟩] ("x").data ("y").data ("d").data
        engineErr st0
      = (st0, [])
    ∧ ((observerMain false (some ⟨false, ("t").data⟩) true [mkUserEntry 1992 'a']
          ("x").data ("y").data ("d").data engineErr st0).2 ≠ []
        ∧ cursorOf (observerMain false (some ⟨false, ("t").data⟩) true [mkUserEntry 1992 'a']
            ("x").data ("y").data ("d").data engineErr st0).1
            = maxLineNum [mkUserEntry 1992 'a'] + 1
        ∧ effectiveLastLine st0 ("t").data < maxLineNum [mkUserEntry 1992 'a'] + 1) := by
  constructor
  · exact c4_delta_minimum_gate.1 ⟨false, ("t").data⟩ true
      [⟨0, ("user").data, .str ("hi").data, []⟩] ("x").data ("y").data ("d").data
      engineErr st0 (by decide)
  · refine c4_delta_minimum_gate.2 ⟨false, ("t").data⟩ [mkUserEntry 1992 'a']
      ("x").data ("y").data ("d").data engineErr st0 rfl (by decide) (by decide)
      ?_ ?_ (by decide)
    · rw [selectNew_all _ (@effectiveLastLine_of_noState st0 rfl _)]
      simp
    · rw [observerDelta_single (@effectiveLastLine_of_noState st0 rfl _) 'a' (by decide)]
      have h8 : (("[User]: ").data).length = 8 := rfl
      rw [List.length_append, h8, List.length_replicate]

/-! ## Claim C1 -/

/-- C1 (amended): over a fixed transcript identity the persisted cursor is
non-decreasing across extraction invocations; and after any invocation that
reached the engine call (non-empty transcript, new entries selected, delta at
or above the minimum, system prompt available) the cursor equals
`max(sequence_index)+1` over all read entries.  Invocations stopped by an
earlier gate leave the cursor unchanged. -/
theorem c1_cursor_monotone :
    (∀ (hookActive : Bool) (inp : HookInput) (tE : Bool) (msgs : List Entry)
        (oS rS td : Text) (e : Engine) (st : MemoryState),
        (loadState st).transcriptPath = inp.transcriptPath →
        cursorOf st
          ≤ cursorOf (observerMain hookActive (some inp) tE msgs oS rS td e st).1)
    ∧ (∀ (inp : HookInput) (msgs : List Entry) (oS rS td : Text)
        (e : Engine) (st : MemoryState),
        inp.stopHookActive = false → inp.transcriptPath ≠ [] → msgs ≠ [] →
        selectNewMessages st inp.transcriptPath msgs ≠ [] →
        2000 ≤ (observerDelta st inp.transcriptPath msgs).length →
        oS ≠ [] →
        cursorOf (observerMain false (some inp) true msgs oS rS td e st).1
          = maxLineNum msgs + 1) := by
  constructor
  · intro hookActive inp tE msgs oS rS td e st hid
    cases hookActive with
    | true =>
      have h : observerMain true (some inp) tE msgs oS rS td e st = (st, []) := by
        unfold observerMain
        simp
      rw [h]
    | false =>
      rw [observerMain_false_some]
      split_ifs with g1 g2 g3 g4 <;> try exact Nat.le_refl _
      by_cases hng : selectNewMessages st inp.transcriptPath msgs = []
      · simp only [observerExtract]
        rw [if_pos hng]
      · by_cases hlen :
            (formatMessagesForObserver (selectNewMessages st inp.transcriptPath msgs)).length
              < 2000
        · simp only [observerExtract]
          rw [if_neg hng, if_pos hlen]
        · by_cases hsys : oS = []
          · simp only [observerExtract]
            rw [if_neg hng, if_neg hlen, if_pos hsys]
          · obtain ⟨task, resp, hstate, -⟩ :=
              @observerExtract_reached inp msgs oS rS td e st hng hlen hsys
            have hcur :
                cursorOf (observerExtract false inp msgs oS rS td e st).1
                  = maxLineNum msgs + 1 := by
              unfold cursorOf loadState
              rw [hstate]
              rfl
            rw [hcur]
            obtain ⟨m, hm⟩ := List.exists_mem_of_ne_nil _ hng
            unfold selectNewMessages at hm
            obtain ⟨hmem, hcond⟩ := List.mem_filter.mp hm
            have hle : effectiveLastLine st inp.transcriptPath ≤ m.lineNum := by
              simpa using hcond
            rw [effectiveLastLine_of_same hid] at hle
            have hmax := lineNum_le_maxLineNum hmem
            omega
  · intro inp msgs oS rS td e st h1 h2 h3 hng hlen hsys
    rw [observerMain_eq_extract h1 h2 h3]
    obtain ⟨task, resp, hstate, -⟩ :=
      @observerExtract_reached inp msgs oS rS td e st hng (by omega) hsys
    unfold cursorOf loadState
    rw [hstate]
    rfl

theorem c1_cursor_monotone_witness :
    cursorOf stT
        ≤ cursorOf (observerMain false (some ⟨false, ("t").data⟩) true [mkUserEntry 1992 'a']
            ("x").data ("y").data ("d").data engineErr stT).1
      ∧ cursorOf (observerMain false (some ⟨false, ("t").data⟩) true [mkUserEntry 1992 'a']
          ("x").data ("y").data ("d").data engineErr stT).1
          = maxLineNum [mkUserEntry 1992 'a'] + 1 := by
  have hlen : 2000 ≤ (observerDelta stT (HookInput.mk false ("t").data).transcriptPath
      [mkUserEntry 1992 'a']).length := by
    rw [observerDelta_single effectiveLastLine_stT 'a' (by decide)]
    have h8 : (("[User]: ").data).length = 8 := rfl
    rw [List.length_append, h8, List.length_replicate]
  constructor
  · exact c1_cursor_monotone.1 false ⟨false, ("t").data⟩ true [mkUserEntry 1992 'a']
      ("x").data ("y").data ("d").data engineErr stT rfl
  · exact c1_cursor_monotone.2 ⟨false, ("t").data⟩ [mkUserEntry 1992 'a']
      ("x").data ("y").data ("d").data engineErr stT rfl (by decide)
      (by decide) (by rw [selectNew_all _ effectiveLastLine_stT]; simp) hlen (by decide)

/-- C1 counterexample: an invocation that reads a non-empty transcript but
whose delta is below the 2000-char minimum does not set the cursor to
`max(sequence_index)+1` (it leaves it at 0 while `max+1 = 1`). -/
theorem c1_counterexample :
    ([(⟨0, ("user").data, .str ("hi").data, []⟩ : Entry)] ≠ ([] : List Entry))
      ∧ cursorOf (observerMain false (some ⟨false, ("t").data⟩) true
          [⟨0, ("user").data, .str ("hi").data, []⟩]
          ("x").data ("y").data ("d").data engineErr st0).1
        ≠ maxLineNum [⟨0, ("user").data, .str ("hi").data, []⟩] + 1 := by
  constructor
  · simp
  · rw [observerMain_small_delta (by decide)]
    decide

/-! ## Claim C2 -/

/-- C2: when the engine is unavailable/fails/times out, returns blank
output, or returns the literal `NO_NEW_OBSERVATIONS` sentinel, the
invocation leaves the Observation Store (and the archive) unchanged but
still persists a cursor equal to `max(sequence_index)+1` over all read
entries. -/
theorem c2_engine_failure_advances_cursor
    (inp : HookInput) (msgs : List Entry) (oS rS td : Text) (e : Engine) (st : MemoryState)
    (h1 : inp.stopHookActive = false) (h2 : inp.transcriptPath ≠ []) (h3 : msgs ≠ [])
    (hng : selectNewMessages st inp.transcriptPath msgs ≠ [])
    (hlen : 2000 ≤ (observerDelta st inp.transcriptPath msgs).length)
    (hsys : oS ≠ [])
    (heng : e true (instrWrap oS (observerUserPrompt st inp.transcriptPath msgs td)) = .err
      ∨ ∃ out, e true (instrWrap oS (observerUserPrompt st inp.transcriptPath msgs td)) = .ok out
          ∧ (pyStrip out = [] ∨ pyStrip out = ("NO_NEW_OBSERVATIONS").data)) :
    (observerMain false (some inp) true msgs oS rS td e st).1.observations = st.observations
      ∧ (observerMain false (some inp) true msgs oS rS td e st).1.reflections = st.reflections
      ∧ (observerMain false (some inp) true msgs oS rS td e st).1.observerState
          = some (savedState (maxLineNum msgs + 1) inp.transcriptPath none none) := by
  have hres : (callClaude false e oS (observerUserPrompt st inp.transcriptPath msgs td)).1 = none
      ∨ (callClaude false e oS (observerUserPrompt st inp.transcriptPath msgs td)).1
          = some (("NO_NEW_OBSERVATIONS").data) := by
    rw [callClaude_false_result]
    rcases heng with h | ⟨out, hok, hcase⟩
    · rw [h]
      exact Or.inl rfl
    · rw [hok]
      dsimp only
      rcases hcase with hempty | hsent
      · rw [hempty]
        exact Or.inl (by simp)
      · rw [hsent]
        right
        rw [if_neg (by decide)]
  rw [observerMain_eq_extract h1 h2 h3,
    observerExtract_noop hng (by omega) hsys hres]
  exact ⟨rfl, rfl, rfl⟩

theorem c2_engine_failure_advances_cursor_witness :
    (observerMain false (some ⟨false, ("t").data⟩) true [mkUserEntry 1992 'a']
        ("x").data ("y").data ("d").data engineErr stT).1.observations = stT.observations
      ∧ (observerMain false (some ⟨false, ("t").data⟩) true [mkUserEntry 1992 'a']
          ("x").data ("y").data ("d").data engineErr stT).1.reflections = stT.reflections
      ∧ (observerMain false (some ⟨false, ("t").data⟩) true [mkUserEntry 1992 'a']
          ("x").data ("y").data ("d").data engineErr stT).1.observerState
          = some (savedState (maxLineNum [mkUserEntry 1992 'a'] + 1) ("t").data none none) := by
  have hlen : 2000 ≤ (observerDelta stT (HookInput.mk false ("t").data).transcriptPath
      [mkUserEntry 1992 'a']).length := by
    rw [observerDelta_single effectiveLastLine_stT 'a' (by decide)]
    have h8 : (("[User]: ").data).length = 8 := rfl
    rw [List.length_append, h8, List.length_replicate]
  exact c2_engine_failure_advances_cursor ⟨false, ("t").data⟩ [mkUserEntry 1992 'a']
    ("x").data ("y").data ("d").data engineErr stT rfl (by decide) (by decide)
    (by rw [selectNew_all _ effectiveLastLine_stT]; simp) hlen (by decide)
    (Or.inl rfl)

/-! ## Claims C8 and C10 -/

theorem takeRightText_length (s : Text) (n : Nat) :
    (takeRightText s n).length = s.length - (s.length - n) := by
  simp [takeRightText, List.length_drop]

theorem exists_infix_append {x ex : Text}
    (h : ∃ pre post, x = pre ++ ex ++ post) (t : Text) :
    ∃ pre post, x ++ t = pre ++ ex ++ post := by
  obtain ⟨a, b, hx⟩ := h
  exact ⟨a, b ++ t, by rw [hx, List.append_assoc]⟩

/-- C8: when the first-built engine input exceeds 80000 characters, the
prompt actually piped to the engine is rebuilt from the trailing 50000
characters of the delta, and the existing observations appear in it in
full. -/
theorem c8_input_cap_keeps_existing
    (inp : HookInput) (msgs : List Entry) (oS rS td : Text) (e : Engine) (st : MemoryState)
    (h1 : inp.stopHookActive = false) (h2 : inp.transcriptPath ≠ []) (h3 : msgs ≠ [])
    (hng : selectNewMessages st inp.transcriptPath msgs ≠ [])
    (hlen : 2000 ≤ (observerDelta st inp.transcriptPath msgs).length)
    (hsys : oS ≠ [])
    (hbig : 80000 < (buildObserverPrompt (observerDelta st inp.transcriptPath msgs)
        (loadExisting st) td).length)
    (hex : loadExisting st ≠ []) :
    (observerMain false (some inp) true msgs oS rS td e st).2.head?
        = some (instrWrap oS (buildObserverPrompt
            (takeRightText (observerDelta st inp.transcriptPath msgs) 50000)
            (loadExisting st) td))
      ∧ ∃ pre post,
          buildObserverPrompt (takeRightText (observerDelta st inp.transcriptPath msgs) 50000)
              (loadExisting st) td
            = pre ++ loadExisting st ++ post := by
  constructor
  · rw [observerMain_eq_extract h1 h2 h3]
    obtain ⟨task, resp, -, hhead⟩ :=
      @observerExtract_reached inp msgs oS rS td e st hng (by omega) hsys
    rw [observerUserPrompt_of_big hbig] at hhead
    exact hhead
  · unfold buildObserverPrompt
    rw [loadExisting_strip, if_pos hex]
    iterate 12 apply exists_infix_append
    exact ⟨_, _, List.append_assoc _ _ _⟩

/-- A memory directory with a 40000-char store and cursor 0 for path `t`. -/
def stC8 : MemoryState :=
  ⟨some (List.replicate 40000 'a'), some ⟨0, ("t").data, none, none⟩, []⟩

theorem effectiveLastLine_stC8 : effectiveLastLine stC8 ("t").data = 0 := by
  rw [@effectiveLastLine_of_same stC8 (("t").data) rfl]
  rfl

theorem loadExisting_stC8 : loadExisting stC8 = List.replicate 40000 'a' := by
  show pyStrip (List.replicate 40000 'a') = List.replicate 40000 'a'
  exact pyStrip_replicate (by decide)

theorem deltaC8 : observerDelta stC8 ("t").data [mkUserEntry 60000 'b']
    = ("[User]: ").data ++ List.replicate 60000 'b' :=
  observerDelta_single effectiveLastLine_stC8 'b' (by decide)

theorem deltaC8_length : (observerDelta stC8 ("t").data [mkUserEntry 60000 'b']).length = 60008 := by
  have h8 : (("[User]: ").data).length = 8 := rfl
  rw [deltaC8, List.length_append, h8, List.length_replicate]

theorem pyStrip_loadExisting_stC8_ne :
    pyStrip (loadExisting stC8) ≠ [] := by
  rw [loadExisting_strip, loadExisting_stC8]
  exact replicate_ne_nil_of_pos (by decide) 'a'

theorem pyStrip_loadExisting_stC8_length : (pyStrip (loadExisting stC8)).length = 40000 := by
  rw [loadExisting_strip, loadExisting_stC8, List.length_replicate]

theorem hbigC8 : 80000 < (buildObserverPrompt (observerDelta stC8 ("t").data [mkUserEntry 60000 'b'])
    (loadExisting stC8) ("d").data).length := by
  have hge := buildObserverPrompt_length_ge (observerDelta stC8 ("t").data [mkUserEntry 60000 'b'])
    (loadExisting stC8) ("d").data pyStrip_loadExisting_stC8_ne
  rw [pyStrip_loadExisting_stC8_length, deltaC8_length] at hge
  omega

theorem c8_input_cap_keeps_existing_witness :
    (observerMain false (some ⟨false, ("t").data⟩) true [mkUserEntry 60000 'b']
        ("x").data ("y").data ("d").data engineErr stC8).2.head?
        = some (instrWrap ("x").data (buildObserverPrompt
            (takeRightText (observerDelta stC8 ("t").data [mkUserEntry 60000 'b']) 50000)
            (loadExisting stC8) ("d").data))
      ∧ ∃ pre post,
          buildObserverPrompt (takeRightText (observerDelta stC8 ("t").data [mkUserEntry 60000 'b']) 50000)
              (loadExisting stC8) ("d").data
            = pre ++ loadExisting stC8 ++ post :=
  c8_input_cap_keeps_existing ⟨false, ("t").data⟩ [mkUserEntry 60000 'b']
    ("x").data ("y").data ("d").data engineErr stC8 rfl (by decide) (by decide)
    (by rw [selectNew_all _ effectiveLastLine_stC8]; simp)
    (by rw [deltaC8_length]; omega) (by decide) hbigC8
    (by rw [loadExisting_stC8]; exact replicate_ne_nil_of_pos (by decide) 'a')

/-- C10: with roughly 40000 characters of existing observations and a 60008
character delta, the one-shot truncation rebuilds the prompt but never
re-checks the 80000-char cap: the input actually piped to the engine still
exceeds 80000 characters. -/
theorem c10_rebuilt_input_exceeds_cap :
    ∃ p, (observerMain false (some ⟨false, ("t").data⟩) true [mkUserEntry 60000 'b']
        ("x").data ("y").data ("d").data engineErr stC8).2.head? = some p
      ∧ 80000 < p.length := by
  rw [observerMain_eq_extract rfl (by decide) (by decide)]
  obtain ⟨task, resp, -, hhead⟩ :=
    @observerExtract_reached ⟨false, ("t").data⟩ [mkUserEntry 60000 'b']
      (("x").data) (("y").data) (("d").data) engineErr stC8
      (by rw [selectNew_all _ effectiveLastLine_stC8]; simp)
      (by rw [deltaC8_length]; omega) (by decide)
  refine ⟨_, hhead, ?_⟩
  have hup := observerUserPrompt_of_big hbigC8
  have hge := buildObserverPrompt_length_ge
    (takeRightText (observerDelta stC8 ("t").data [mkUserEntry 60000 'b']) 50000)
    (loadExisting stC8) ("d").data pyStrip_loadExisting_stC8_ne
  have htr : (takeRightText (observerDelta stC8 ("t").data [mkUserEntry 60000 'b']) 50000).length
      = 50000 := by
    rw [takeRightText_length, deltaC8_length]
  rw [pyStrip_loadExisting_stC8_length, htr] at hge
  have hinstr := le_instrWrap_length ("x").data
    (buildObserverPrompt
      (takeRightText (observerDelta stC8 ("t").data [mkUserEntry 60000 'b']) 50000)
      (loadExisting stC8) ("d").data)
  rw [hup]
  omega

/-! ## Claim C3 -/

/-- An engine that always returns 60 characters of output. -/
def engineOk60 : Engine := fun _ _ => .ok (List.replicate 60 'b')

/-- An engine that always returns 150 characters of output. -/
def engineOk150 : Engine := fun _ _ => .ok (List.replicate 150 'b')

/-- A memory directory with a 5000-char store. -/
def stC3 : MemoryState := ⟨some (List.replicate 5000 'a'), none, []⟩

/-- C3: for both compaction paths (reflector.py `reflect`, minimum viable
length 50, and observer.py `run_reflector`, minimum viable length 100): a
missing or too-short engine result leaves the memory state — in particular
the store, byte for byte — unchanged and writes no archive entry; a valid
result appends exactly one archive entry whose recorded pre-compaction
content is the prior content of the store, and replaces the store with the
condensed result. -/
theorem c3_compaction_safety :
    (∀ (force : Bool) (rS td : Text) (e : Engine) (st : MemoryState) (content : Text),
      st.observations = some content →
      (((callClaude false e rS (reflectUserPrompt content td)).1 = none
          ∨ ∃ r, (callClaude false e rS (reflectUserPrompt content td)).1 = some r
              ∧ (pyStrip r).length < 50) →
        (reflect false force rS td e st).1 = st)
      ∧ (∀ r, (callClaude false e rS (reflectUserPrompt content td)).1 = some r →
          50 ≤ (pyStrip r).length →
          pyStrip content ≠ [] → (force = true ∨ 5000 ≤ content.length) → rS ≠ [] →
          (reflect false force rS td e st).1.reflections
              = st.reflections ++ [⟨content, content.length,
                  (stripFenceEnd (stripFenceStart (pyStrip r))).length⟩]
            ∧ (reflect false force rS td e st).1.observations
              = some (stripFenceEnd (stripFenceStart (pyStrip r)) ++ ("\n").data)))
    ∧ (∀ (rS td : Text) (e : Engine) (st : MemoryState) (content : Text),
      st.observations = some content →
      (((callClaude false e rS (runReflectorUserPrompt content td)).1 = none
          ∨ ∃ r, (callClaude false e rS (runReflectorUserPrompt content td)).1 = some r
              ∧ (pyStrip r).length < 100) →
        (runReflector false rS td e st).1 = st)
      ∧ (∀ r, (callClaude false e rS (runReflectorUserPrompt content td)).1 = some r →
          100 ≤ (pyStrip r).length → 40000 ≤ content.length → rS ≠ [] →
          (runReflector false rS td e st).1.reflections
              = st.reflections ++ [⟨content, content.length, r.length⟩]
            ∧ (runReflector false rS td e st).1.observations
              = some (pyStrip r ++ ("\n").data))) := by
  constructor
  · intro force rS td e st content hobs
    constructor
    · intro hres
      unfold reflect
      rw [hobs]
      dsimp only
      split_ifs with g1 g2 g3 <;> try rfl
      rcases hc : callClaude false e rS (reflectUserPrompt content td) with ⟨res, trace⟩
      cases res with
      | none => rfl
      | some r =>
        dsimp only
        rcases hres with hnone | ⟨r2, hr2, hshort⟩
        · rw [hc] at hnone
          simp at hnone
        · rw [hc] at hr2
          simp at hr2
          subst hr2
          rw [if_pos hshort]
    · intro r hr h50 hblank hforce hsys
      unfold reflect
      rw [hobs]
      dsimp only
      rw [if_neg hblank, if_neg (by
        rintro ⟨hf, hl⟩
        rcases hforce with h | h
        · exact hf (by simp [h])
        · omega), if_neg hsys]
      rcases hc : callClaude false e rS (reflectUserPrompt content td) with ⟨res, trace⟩
      rw [hc] at hr
      cases res with
      | none => simp at hr
      | some r2 =>
        simp at hr
        subst hr
        dsimp only
        rw [if_neg (by omega)]
        exact ⟨rfl, rfl⟩
  · intro rS td e st content hobs
    constructor
    · intro hres
      unfold runReflector
      rw [hobs]
      dsimp only
      split_ifs with g1 g2 <;> try rfl
      rcases hc : callClaude false e rS (runReflectorUserPrompt content td) with ⟨res, trace⟩
      cases res with
      | none => rfl
      | some r =>
        dsimp only
        rcases hres with hnone | ⟨r2, hr2, hshort⟩
        · rw [hc] at hnone
          simp at hnone
        · rw [hc] at hr2
          simp at hr2
          subst hr2
          rw [if_pos hshort]
    · intro r hr h100 hlen hsys
      unfold runReflector
      rw [hobs]
      dsimp only
      rw [if_neg (by omega), if_neg hsys]
      rcases hc : callClaude false e rS (runReflectorUserPrompt content td) with ⟨res, trace⟩
      rw [hc] at hr
      cases res with
      | none => simp at hr
      | some r2 =>
        simp at hr
        subst hr
        dsimp only
        rw [if_neg (by omega)]
        exact ⟨rfl, rfl⟩

theorem c3_compaction_safety_witness :
    (reflect false false ("x").data ("d").data engineErr stC3).1 = stC3
      ∧ ((reflect false false ("x").data ("d").data engineOk60 stC3).1.reflections
          = stC3.reflections ++ [⟨List.replicate 5000 'a', (List.replicate 5000 'a').length,
              (stripFenceEnd (stripFenceStart (pyStrip (List.replicate 60 'b')))).length⟩]
        ∧ (reflect false false ("x").data ("d").data engineOk60 stC3).1.observations
          = some (stripFenceEnd (stripFenceStart (pyStrip (List.replicate 60 'b'))) ++ ("\n").data))
      ∧ (runReflector false ("x").data ("d").data engineErr stC8).1 = stC8
      ∧ ((runReflector false ("x").data ("d").data engineOk150 stC8).1.reflections
          = stC8.reflections ++ [⟨List.replicate 40000 'a', (List.replicate 40000 'a').length,
              (List.replicate 150 'b').length⟩]
        ∧ (runReflector false ("x").data ("d").data engineOk150 stC8).1.observations
          = some (pyStrip (List.replicate 150 'b') ++ ("\n").data)) := by
  have hr60 : (callClaude false engineOk60 ("x").data
      (reflectUserPrompt (List.replicate 5000 'a') ("d").data)).1
      = some (List.replicate 60 'b') := by
    rw [callClaude_false_result]
    show (if pyStrip (List.replicate 60 'b') = [] then none
      else some (pyStrip (List.replicate 60 'b'))) = _
    rw [pyStrip_replicate (by decide)]
    rw [if_neg (replicate_ne_nil_of_pos (by decide) 'b')]
  have hr150 : (callClaude false engineOk150 ("x").data
      (runReflectorUserPrompt (List.replicate 40000 'a') ("d").data)).1
      = some (List.replicate 150 'b') := by
    rw [callClaude_false_result]
    show (if pyStrip (List.replicate 150 'b') = [] then none
      else some (pyStrip (List.replicate 150 'b'))) = _
    rw [pyStrip_replicate (by decide)]
    rw [if_neg (replicate_ne_nil_of_pos (by decide) 'b')]
  refine ⟨?_, ?_, ?_, ?_⟩
  · exact ((c3_compaction_safety.1 false ("x").data ("d").data engineErr stC3
      (List.replicate 5000 'a') rfl).1 (Or.inl rfl))
  · have h := (c3_compaction_safety.1 false ("x").data ("d").data engineOk60 stC3
      (List.replicate 5000 'a') rfl).2 (List.replicate 60 'b') hr60
      (by rw [pyStrip_replicate (by decide), List.length_replicate]; omega)
      (by rw [pyStrip_replicate (by decide)]
          exact replicate_ne_nil_of_pos (by decide) 'a')
      (Or.inr (by rw [List.length_replicate])) (by decide)
    exact ⟨h.1, h.2⟩
  · exact ((c3_compaction_safety.2 ("x").data ("d").data engineErr stC8
      (List.replicate 40000 'a') rfl).1 (Or.inl rfl))
  · have h := (c3_compaction_safety.2 ("x").data ("d").data engineOk150 stC8
      (List.replicate 40000 'a') rfl).2 (List.replicate 150 'b') hr150
      (by rw [pyStrip_replicate (by decide), List.length_replicate]; omega)
      (by rw [List.length_replicate]) (by decide)
    exact ⟨h.1, h.2⟩

/-! ## Claim C9 -/

/-- A memory directory with a 100-char store. -/
def stC9 : MemoryState := ⟨some (List.replicate 100 'a'), none, []⟩

/-- C9 (amended): the automatic compaction after a successful append runs —
observably, invokes the engine — exactly when the re-read store size is at
least 40000 characters; the non-forced explicit invocation path (the
the `reflect` of the PreCompact hook with `force=False`) stops short of the engine
when the store is below its separate 5000-char threshold; the forced
invocation path (`reflect` with `force=True`) bypasses the 5000-char
threshold and invokes the engine for any non-blank store. -/
theorem c9_compaction_thresholds :
    (∀ (rS td : Text) (e : Engine) (st : MemoryState), rS ≠ [] →
        ((maybeReflect false rS td e st).2 ≠ []
          ↔ 40000 ≤ (st.observations.getD []).length))
    ∧ (∀ (rS td : Text) (e : Engine) (st : MemoryState) (content : Text),
        st.observations = some content → content.length < 5000 →
        reflect false false rS td e st = (st, false, []))
    ∧ (∀ (rS td : Text) (e : Engine) (st : MemoryState) (content : Text),
        st.observations = some content → pyStrip content ≠ [] → rS ≠ [] →
        (reflect false true rS td e st).2.2 ≠ []) := by
  refine ⟨?_, ?_, ?_⟩
  · intro rS td e st hsys
    unfold maybeReflect
    by_cases h : 40000 ≤ (st.observations.getD []).length
    · rw [if_pos h]
      refine ⟨fun _ => h, fun _ => ?_⟩
      unfold runReflector
      rcases hobs : st.observations with _ | content
      · rw [hobs] at h
        simp at h
      · rw [hobs] at h
        simp only [Option.getD_some] at h
        dsimp only
        rw [if_neg (by omega), if_neg hsys]
        rcases hc : callClaude false e rS (runReflectorUserPrompt content td) with ⟨res, trace⟩
        have htr : trace = [instrWrap rS (runReflectorUserPrompt content td)] := by
          have := callClaude_false_trace e rS (runReflectorUserPrompt content td)
          rw [hc] at this
          exact this
        subst htr
        cases res with
        | none => simp
        | some r =>
          dsimp only
          split_ifs <;> simp
    · rw [if_neg h]
      simp only [ne_eq, not_true_eq_false]
      exact ⟨fun hcon => hcon.elim, fun hle => h hle⟩
  · intro rS td e st content hobs hlen
    unfold reflect
    rw [hobs]
    dsimp only
    by_cases hblank : pyStrip content = []
    · rw [if_pos hblank]
    · rw [if_neg hblank, if_pos ⟨by simp, hlen⟩]
  · intro rS td e st content hobs hblank hsys
    unfold reflect
    rw [hobs]
    dsimp only
    rw [if_neg hblank, if_neg (by simp), if_neg hsys]
    rcases hc : callClaude false e rS (reflectUserPrompt content td) with ⟨res, trace⟩
    have htr : trace = [instrWrap rS (reflectUserPrompt content td)] := by
      have := callClaude_false_trace e rS (reflectUserPrompt content td)
      rw [hc] at this
      exact this
    subst htr
    cases res with
    | none => simp
    | some r =>
      dsimp only
      split_ifs <;> simp

/-- C9 counterexample: the forced compaction path proceeds — the engine is
invoked, the run reports success and an archive entry is written — on a
100-character store, far below the claimed separate 5000-character lower
threshold: `force=True` bypasses that threshold entirely. -/
theorem c9_counterexample :
    ((stC9.observations.getD []).length < 5000)
      ∧ (reflect false true ("x").data ("d").data engineOk60 stC9).2.1 = true
      ∧ (reflect false true ("x").data ("d").data engineOk60 stC9).1.reflections ≠ [] := by
  refine ⟨?_, ?_, ?_⟩
  · show (List.replicate 100 'a').length < 5000
    rw [List.length_replicate]
    omega
  · have hblank : pyStrip (List.replicate 100 'a') ≠ [] := by
      rw [pyStrip_replicate (by decide)]
      exact replicate_ne_nil_of_pos (by decide) 'a'
    unfold reflect stC9
    dsimp only
    rw [if_neg hblank, if_neg (by simp), if_neg (by decide)]
    rcases hc : callClaude false engineOk60 ("x").data
        (reflectUserPrompt (List.replicate 100 'a') ("d").data) with ⟨res, trace⟩
    have hres : res = some (List.replicate 60 'b') := by
      have h1 : (callClaude false engineOk60 ("x").data
          (reflectUserPrompt (List.replicate 100 'a') ("d").data)).1
          = some (List.replicate 60 'b') := by
        rw [callClaude_false_result]
        show (if pyStrip (List.replicate 60 'b') = [] then none
          else some (pyStrip (List.replicate 60 'b'))) = _
        rw [pyStrip_replicate (by decide)]
        rw [if_neg (replicate_ne_nil_of_pos (by decide) 'b')]
      rw [hc] at h1
      exact h1
    subst hres
    dsimp only
    rw [if_neg (by rw [pyStrip_replicate (by decide), List.length_replicate]; omega)]
  · have hblank : pyStrip (List.replicate 100 'a') ≠ [] := by
      rw [pyStrip_replicate (by decide)]
      exact replicate_ne_nil_of_pos (by decide) 'a'
    unfold reflect stC9
    dsimp only
    rw [if_neg hblank, if_neg (by simp), if_neg (by decide)]
    rcases hc : callClaude false engineOk60 ("x").data
        (reflectUserPrompt (List.replicate 100 'a') ("d").data) with ⟨res, trace⟩
    have hres : res = some (List.replicate 60 'b') := by
      have h1 : (callClaude false engineOk60 ("x").data
          (reflectUserPrompt (List.replicate 100 'a') ("d").data)).1
          = some (List.replicate 60 'b') := by
        rw [callClaude_false_result]
        show (if pyStrip (List.replicate 60 'b') = [] then none
          else some (pyStrip (List.replicate 60 'b'))) = _
        rw [pyStrip_replicate (by decide)]
        rw [if_neg (replicate_ne_nil_of_pos (by decide) 'b')]
      rw [hc] at h1
      exact h1
    subst hres
    dsimp only
    rw [if_neg (by rw [pyStrip_replicate (by decide), List.length_replicate]; omega)]
    simp

theorem c9_compaction_thresholds_witness :
    ((maybeReflect false ("x").data ("d").data engineErr stC8).2 ≠ []
        ↔ 40000 ≤ (stC8.observations.getD []).length)
      ∧ reflect false false ("x").data ("d").data engineErr stC9 = (stC9, false, [])
      ∧ (reflect false true ("x").data ("d").data engineErr stC9).2.2 ≠ [] := by
  refine ⟨?_, ?_, ?_⟩
  · exact c9_compaction_thresholds.1 ("x").data ("d").data engineErr stC8 (by decide)
  · exact c9_compaction_thresholds.2.1 ("x").data ("d").data engineErr stC9
      (List.replicate 100 'a') rfl (by rw [List.length_replicate]; omega)
  · exact c9_compaction_thresholds.2.2 ("x").data ("d").data engineErr stC9
      (List.replicate 100 'a') rfl
      (by rw [pyStrip_replicate (by decide)]
          exact replicate_ne_nil_of_pos (by decide) 'a')
      (by decide)
